import Mathlib

/-!
Shallow embedding of `multibody/fem/fem_element.h`: the generic FEM element
base class (`FemElement`) built on CRTP. Scalars are modelled as `ℚ`,
fixed-size Eigen vectors/matrices as functions out of `Fin`, `EigenPtr`
arguments as `Option` (a null pointer is `none`), and C++ exceptions /
assertion failures as the `Except FemError` monad. The CRTP hooks that a
derived element may supply (`DoComputeData`, `DoCalcResidual`,
`DoAddScaledStiffnessMatrix`, `DoAddScaledMassMatrix`) are `Option`-valued
fields on the element: `none` models a derived class that did not override
the hook, in which case the base-class default calls
`ThrowIfNotImplemented`. `DoAddScaledExternalForce` has a non-throwing
no-op default in the source, so it is a total field with default value
the identity on the buffer.
-/

namespace DrakeFem

/-- Fixed-size vector of rationals, modelling `Vector<T, d>`. -/
abbrev Vec (d : ℕ) := Fin d → ℚ

/-- Fixed-size square matrix of rationals, modelling `Eigen::Matrix<T, d, d>`. -/
abbrev Mat (d : ℕ) := Fin d → Fin d → ℚ

/-- Failure modes of the element operations: `assertionFailure` models a
`DRAKE_ASSERT`/`DRAKE_DEMAND` firing (e.g. on a null output pointer), and
`runtimeError` models a thrown `std::runtime_error` with its message. -/
inductive FemError where
  | assertionFailure : FemError
  | runtimeError : String → FemError
deriving DecidableEq

instance {ε α : Type} [DecidableEq ε] [DecidableEq α] :
    DecidableEq (Except ε α) := fun a b =>
  match a, b with
  | .error x, .error y =>
      if h : x = y then .isTrue (by rw [h]) else .isFalse (by simp [h])
  | .error _, .ok _ => .isFalse (by simp)
  | .ok _, .error _ => .isFalse (by simp)
  | .ok x, .ok y =>
      if h : x = y then .isTrue (by rw [h]) else .isFalse (by simp [h])

/-- Model of `DampingModel<T>`: Rayleigh damping coefficients. -/
structure DampingModel where
  mass_coeff_alpha : ℚ
  stiffness_coeff_beta : ℚ

/-- The element base class `FemElement<DerivedElement>` together with the
derived element's kernels, for a concrete node count `n` (so `num_dofs = 3*n`),
state type `State`, per-element data type `Data` and constitutive model `CM`.
`typeName` models `NiceTypeName::Get(*this)` for the derived type. -/
structure FemElement (n : ℕ) (State Data CM : Type) where
  typeName : String
  element_index : ℕ
  node_indices : Fin n → ℕ
  constitutive_model : CM
  damping_model : DampingModel
  gravity_vector : Vec 3 := fun i => if i.val = 2 then -(981/100) else 0
  doComputeData : Option (State → Data) := none
  doCalcResidual : Option (Data → Vec (3 * n) → Vec (3 * n)) := none
  doAddScaledStiffnessMatrix : Option (Data → ℚ → Mat (3 * n) → Mat (3 * n)) := none
  doAddScaledMassMatrix : Option (Data → ℚ → Mat (3 * n) → Mat (3 * n)) := none
  doAddScaledExternalForce : Data → ℚ → Vec (3 * n) → Vec (3 * n) := fun _ _ f => f

namespace FemElement

variable {n : ℕ} {State Data CM : Type}

/-- Model of `FemElement::ThrowIfNotImplemented`: the descriptive exception raised when
a required kernel was not supplied by the derived element. -/
def ThrowIfNotImplemented (typeName source_method : String) : FemError :=
  .runtimeError ("The DerivedElement from " ++ typeName ++
    " must provide an implementation for " ++ source_method ++ "().")

/-- Model of `FemElement::ComputeData`: delegates to the derived `DoComputeData`;
the base-class default throws. -/
def ComputeData (e : FemElement n State Data CM) (state : State) :
    Except FemError Data :=
  match e.doComputeData with
  | none => .error (ThrowIfNotImplemented e.typeName "DoComputeData")
  | some f => .ok (f state)

/-- Model of `FemElement::CalcResidual`: asserts the output pointer non-null, zeroes
the residual, then delegates to the derived `DoCalcResidual` (whose
base-class default throws). -/
def CalcResidual (e : FemElement n State Data CM) (data : Data)
    (residual : Option (Vec (3 * n))) : Except FemError (Vec (3 * n)) :=
  match residual with
  | none => .error .assertionFailure
  | some _ =>
    match e.doCalcResidual with
    | none => .error (ThrowIfNotImplemented e.typeName "DoCalcResidual")
    | some f => .ok (f data (fun _ => 0))

/-- Model of `FemElement::AddScaledStiffnessMatrix`: asserts the buffer non-null, then
delegates to the derived `DoAddScaledStiffnessMatrix` (default throws).
It does not zero the buffer. -/
def AddScaledStiffnessMatrix (e : FemElement n State Data CM) (data : Data)
    (scale : ℚ) (K : Option (Mat (3 * n))) : Except FemError (Mat (3 * n)) :=
  match K with
  | none => .error .assertionFailure
  | some K0 =>
    match e.doAddScaledStiffnessMatrix with
    | none => .error (ThrowIfNotImplemented e.typeName "DoAddScaledStiffnessMatrix")
    | some f => .ok (f data scale K0)

/-- Model of `FemElement::AddScaledMassMatrix`: asserts the buffer non-null, then
delegates to the derived `DoAddScaledMassMatrix` (default throws).
It does not zero the buffer. -/
def AddScaledMassMatrix (e : FemElement n State Data CM) (data : Data)
    (scale : ℚ) (M : Option (Mat (3 * n))) : Except FemError (Mat (3 * n)) :=
  match M with
  | none => .error .assertionFailure
  | some M0 =>
    match e.doAddScaledMassMatrix with
    | none => .error (ThrowIfNotImplemented e.typeName "DoAddScaledMassMatrix")
    | some f => .ok (f data scale M0)

/-- Model of `FemElement::AddScaledDampingMatrix`: asserts the buffer non-null, then
adds `scale*alpha` times the mass matrix followed by `scale*beta` times the
stiffness matrix (the Rayleigh identity); no damping-specific kernel exists. -/
def AddScaledDampingMatrix (e : FemElement n State Data CM) (data : Data)
    (scale : ℚ) (D : Option (Mat (3 * n))) : Except FemError (Mat (3 * n)) :=
  match D with
  | none => .error .assertionFailure
  | some D0 =>
    match e.AddScaledMassMatrix data (scale * e.damping_model.mass_coeff_alpha)
        (some D0) with
    | .error err => .error err
    | .ok D1 =>
        e.AddScaledStiffnessMatrix data
          (scale * e.damping_model.stiffness_coeff_beta) (some D1)

/-- Model of `FemElement::CalcTangentMatrix`: demands the buffer non-null, zeroes it,
then accumulates the stiffness matrix scaled by `w0 + w1*beta` and the mass
matrix scaled by `w2 + w1*alpha`. -/
def CalcTangentMatrix (e : FemElement n State Data CM) (data : Data)
    (weights : Vec 3) (tangent_matrix : Option (Mat (3 * n))) :
    Except FemError (Mat (3 * n)) :=
  match tangent_matrix with
  | none => .error .assertionFailure
  | some _ =>
    match e.AddScaledStiffnessMatrix data
        (weights 0 + weights 1 * e.damping_model.stiffness_coeff_beta)
        (some (fun _ _ => 0)) with
    | .error err => .error err
    | .ok T1 =>
        e.AddScaledMassMatrix data
          (weights 2 + weights 1 * e.damping_model.mass_coeff_alpha) (some T1)

/-- Model of `FemElement::AddScaledGravityForce` (protected helper, always called with
a valid pointer): builds a zero local matrix, accumulates the mass matrix
into it with scale 1, then adds `scale * mass_matrix * stacked_gravity`
to `force`, where `stacked_gravity` stacks the gravity vector once per node. -/
def AddScaledGravityForce (e : FemElement n State Data CM) (data : Data)
    (scale : ℚ) (force : Vec (3 * n)) : Except FemError (Vec (3 * n)) :=
  match e.AddScaledMassMatrix data 1 (some (fun _ _ => 0)) with
  | .error err => .error err
  | .ok mass_matrix =>
      let stacked_gravity : Vec (3 * n) :=
        fun j => e.gravity_vector ⟨j.val % 3, by omega⟩
      .ok (fun i => force i +
        scale * ∑ j, mass_matrix i j * stacked_gravity j)

/-- Model of `FemElement::AddScaledExternalForce`: asserts the buffer non-null, always
adds the scaled gravity force, then delegates to `DoAddScaledExternalForce`
(whose default is a no-op). -/
def AddScaledExternalForce (e : FemElement n State Data CM) (data : Data)
    (scale : ℚ) (external_force : Option (Vec (3 * n))) :
    Except FemError (Vec (3 * n)) :=
  match external_force with
  | none => .error .assertionFailure
  | some f =>
    match e.AddScaledGravityForce data scale f with
    | .error err => .error err
    | .ok f1 => .ok (e.doAddScaledExternalForce data scale f1)

/-- Static `FemElement::ExtractElementDofs`: asserts every indexed node's
3-block fits in `state_dofs`, then copies, for each local node `i`, the
3-block of `state_dofs` starting at `node_indices[i] * 3` into local
positions `[3i, 3i+3)`. -/
def ExtractElementDofs (node_indices : Fin n → ℕ) (state_dofs : List ℚ) :
    Except FemError (Vec (3 * n)) :=
  if ∀ i : Fin n, (node_indices i + 1) * 3 ≤ state_dofs.length then
    .ok (fun j =>
      state_dofs.getD (node_indices ⟨j.val / 3, by omega⟩ * 3 + j.val % 3) 0)
  else .error .assertionFailure

/-- Member `FemElement::ExtractElementDofs`: uses the element's own
`node_indices`. -/
def ExtractElementDofsOfSelf (e : FemElement n State Data CM)
    (state_dofs : List ℚ) : Except FemError (Vec (3 * n)) :=
  ExtractElementDofs e.node_indices state_dofs

end FemElement

/-- A conforming accumulate-only kernel: adds `scale` times the local matrix
`A data` into the in/out buffer, exactly the contract documented for
`DoAddScaledStiffnessMatrix` / `DoAddScaledMassMatrix`. -/
def addScaledOf {n : ℕ} {Data : Type} (A : Data → Mat (3 * n)) :
    Data → ℚ → Mat (3 * n) → Mat (3 * n) :=
  fun data scale B => fun i j => B i j + scale * A data i j

/-- Modelled from the spec: the Rayleigh damping matrix `D = alpha*M + beta*K`. -/
def rayleighDamping {d : ℕ} (alpha beta : ℚ) (M K : Mat d) : Mat d :=
  fun i j => alpha * M i j + beta * K i j

/-- Modelled from the spec: the unfolded tangent combination
`w0*K + w1*D + w2*M` with `D` materialized as the Rayleigh damping matrix. -/
def tangentCombinationSpec {d : ℕ} (alpha beta : ℚ) (K M : Mat d)
    (w : Vec 3) : Mat d :=
  fun i j => w 0 * K i j + w 1 * rayleighDamping alpha beta M K i j +
    w 2 * M i j

namespace FemElement

variable {n : ℕ} {State Data CM : Type}

/-- C8: passing a null output buffer (`none`) to any of `CalcResidual`,
`CalcTangentMatrix`, `AddScaledStiffnessMatrix`, `AddScaledMassMatrix`,
`AddScaledDampingMatrix` or `AddScaledExternalForce` fails fast with an
assertion failure before any computation, for every element and every data. -/
theorem null_buffer_fails_fast (e : FemElement n State Data CM) (data : Data)
    (scale : ℚ) (weights : Vec 3) :
    e.CalcResidual data none = .error .assertionFailure ∧
    e.CalcTangentMatrix data weights none = .error .assertionFailure ∧
    e.AddScaledStiffnessMatrix data scale none = .error .assertionFailure ∧
    e.AddScaledMassMatrix data scale none = .error .assertionFailure ∧
    e.AddScaledDampingMatrix data scale none = .error .assertionFailure ∧
    e.AddScaledExternalForce data scale none = .error .assertionFailure :=
  ⟨rfl, rfl, rfl, rfl, rfl, rfl⟩

/-- C2: `CalcResidual` zeroes the output before delegating to the concrete
kernel, so a kernel that adds a constant contribution `c` yields exactly `c`
regardless of the prior contents `r0` of the buffer. -/
theorem calcResidual_zeroes_first (e : FemElement n State Data CM)
    (c : Vec (3 * n))
    (hker : e.doCalcResidual = some (fun _ r => fun i => r i + c i))
    (data : Data) (r0 : Vec (3 * n)) :
    e.CalcResidual data (some r0) = .ok c := by
  simp only [CalcResidual, hker]
  congr 1
  funext i
  exact zero_add (c i)

/-- C4: `AddScaledDampingMatrix` is exactly `AddScaledMassMatrix` with scale
`s*alpha` followed by `AddScaledStiffnessMatrix` with scale `s*beta` (no
damping-specific kernel exists in the model), and with conforming kernels it
adds `s*(alpha*M + beta*K)` into the buffer without zeroing it. -/
theorem addScaledDampingMatrix_spec (e : FemElement n State Data CM)
    (K M : Data → Mat (3 * n))
    (hK : e.doAddScaledStiffnessMatrix = some (addScaledOf K))
    (hM : e.doAddScaledMassMatrix = some (addScaledOf M))
    (data : Data) (s : ℚ) (D : Mat (3 * n)) :
    e.AddScaledDampingMatrix data s (some D) =
      (e.AddScaledMassMatrix data (s * e.damping_model.mass_coeff_alpha)
          (some D)).bind
        (fun D1 => e.AddScaledStiffnessMatrix data
          (s * e.damping_model.stiffness_coeff_beta) (some D1)) ∧
    e.AddScaledDampingMatrix data s (some D) =
      .ok (fun i j => D i j +
        s * (e.damping_model.mass_coeff_alpha * M data i j +
             e.damping_model.stiffness_coeff_beta * K data i j)) := by
  constructor
  · simp only [AddScaledDampingMatrix, AddScaledMassMatrix, hM, Except.bind]
  · simp only [AddScaledDampingMatrix, AddScaledMassMatrix,
      AddScaledStiffnessMatrix, hK, hM]
    congr 1
    funext i j
    simp only [addScaledOf]
    ring

/-- C9: with a conforming mass kernel, `AddScaledMassMatrix` with scale `2s`
on a zeroed buffer equals twice `AddScaledMassMatrix` with scale `s` on a
zeroed buffer. -/
theorem addScaledMassMatrix_linearity (e : FemElement n State Data CM)
    (M : Data → Mat (3 * n))
    (hM : e.doAddScaledMassMatrix = some (addScaledOf M))
    (data : Data) (s : ℚ) :
    e.AddScaledMassMatrix data (2 * s) (some (fun _ _ => 0)) =
      Except.map (fun W : Mat (3 * n) => fun i j => 2 * W i j)
        (e.AddScaledMassMatrix data s (some (fun _ _ => 0))) := by
  simp only [AddScaledMassMatrix, hM, Except.map]
  congr 1
  funext i j
  simp only [addScaledOf]
  ring

/-- C1: with conforming stiffness and mass kernels, `CalcTangentMatrix`
ignores the prior buffer contents (it zeroes first) and produces
`(w0 + w1*beta)*K + (w2 + w1*alpha)*M`, which equals the unfolded
combination `w0*K + w1*D + w2*M` with `D = alpha*M + beta*K`; in particular
with weights `(0, 1, 0)` it produces exactly the Rayleigh damping matrix. -/
theorem calcTangentMatrix_combines (e : FemElement n State Data CM)
    (K M : Data → Mat (3 * n))
    (hK : e.doAddScaledStiffnessMatrix = some (addScaledOf K))
    (hM : e.doAddScaledMassMatrix = some (addScaledOf M))
    (data : Data) (w : Vec 3) (T0 : Mat (3 * n)) :
    e.CalcTangentMatrix data w (some T0) =
      .ok (fun i j =>
        (w 0 + w 1 * e.damping_model.stiffness_coeff_beta) * K data i j +
        (w 2 + w 1 * e.damping_model.mass_coeff_alpha) * M data i j) ∧
    e.CalcTangentMatrix data w (some T0) =
      .ok (tangentCombinationSpec e.damping_model.mass_coeff_alpha
        e.damping_model.stiffness_coeff_beta (K data) (M data) w) ∧
    e.CalcTangentMatrix data ![0, 1, 0] (some T0) =
      .ok (rayleighDamping e.damping_model.mass_coeff_alpha
        e.damping_model.stiffness_coeff_beta (M data) (K data)) := by
  refine ⟨?_, ?_, ?_⟩
  · simp only [CalcTangentMatrix, AddScaledStiffnessMatrix,
      AddScaledMassMatrix, hK, hM]
    congr 1
    funext i j
    simp only [addScaledOf]
    ring
  · simp only [CalcTangentMatrix, AddScaledStiffnessMatrix,
      AddScaledMassMatrix, hK, hM]
    congr 1
    funext i j
    simp only [addScaledOf, tangentCombinationSpec, rayleighDamping]
    ring
  · simp only [CalcTangentMatrix, AddScaledStiffnessMatrix,
      AddScaledMassMatrix, hK, hM]
    congr 1
    funext i j
    simp only [addScaledOf, rayleighDamping, Matrix.cons_val_zero,
      Matrix.cons_val_one, Matrix.head_cons, Matrix.cons_val_two,
      Matrix.tail_cons]
    ring

/-- C3: `AddScaledStiffnessMatrix` and `AddScaledMassMatrix` never zero the
buffer: with conforming kernels they add `scale` times the local matrix into
whatever the caller already holds, and calling the stiffness accumulation
twice with the same scale `s` on a buffer pre-seeded with `X` yields
`X + 2*s*K`. -/
theorem addScaled_accumulate_only (e : FemElement n State Data CM)
    (K M : Data → Mat (3 * n))
    (hK : e.doAddScaledStiffnessMatrix = some (addScaledOf K))
    (hM : e.doAddScaledMassMatrix = some (addScaledOf M))
    (data : Data) (s : ℚ) (X : Mat (3 * n)) :
    e.AddScaledStiffnessMatrix data s (some X) =
      .ok (fun i j => X i j + s * K data i j) ∧
    e.AddScaledMassMatrix data s (some X) =
      .ok (fun i j => X i j + s * M data i j) ∧
    (e.AddScaledStiffnessMatrix data s (some X)).bind
        (fun Y => e.AddScaledStiffnessMatrix data s (some Y)) =
      .ok (fun i j => X i j + 2 * s * K data i j) := by
  refine ⟨?_, ?_, ?_⟩
  · simp only [AddScaledStiffnessMatrix, hK]
    rfl
  · simp only [AddScaledMassMatrix, hM]
    rfl
  · simp only [AddScaledStiffnessMatrix, hK, Except.bind]
    congr 1
    funext i j
    simp only [addScaledOf]
    ring

/-- C6: with a conforming mass kernel and the default (no-op) external-force
hook, `AddScaledExternalForce` adds to the buffer exactly
`scale * (local mass matrix) * (gravity stacked once per node)`. -/
theorem addScaledExternalForce_gravity (e : FemElement n State Data CM)
    (M : Data → Mat (3 * n))
    (hM : e.doAddScaledMassMatrix = some (addScaledOf M))
    (hHook : e.doAddScaledExternalForce = fun _ _ f => f)
    (data : Data) (s : ℚ) (f : Vec (3 * n)) :
    e.AddScaledExternalForce data s (some f) =
      .ok (fun i => f i +
        s * ∑ j, M data i j * e.gravity_vector ⟨j.val % 3, by omega⟩) := by
  simp only [AddScaledExternalForce, AddScaledGravityForce,
    AddScaledMassMatrix, hM, hHook]
  congr 1
  funext i
  simp only [addScaledOf, zero_add, one_mul]

/-- C10: the amount `AddScaledExternalForce` adds does not depend on the
prior contents of the force buffer: for an arbitrary (present) mass kernel
and the default external-force hook, applying it to `f` equals `f` plus the
result of applying it to a zeroed buffer. -/
theorem addScaledExternalForce_additive (e : FemElement n State Data CM)
    (hm : Data → ℚ → Mat (3 * n) → Mat (3 * n))
    (hM : e.doAddScaledMassMatrix = some hm)
    (hHook : e.doAddScaledExternalForce = fun _ _ f => f)
    (data : Data) (s : ℚ) (f : Vec (3 * n)) :
    e.AddScaledExternalForce data s (some f) =
      Except.map (fun v : Vec (3 * n) => fun i => f i + v i)
        (e.AddScaledExternalForce data s (some (fun _ => 0))) := by
  simp only [AddScaledExternalForce, AddScaledGravityForce,
    AddScaledMassMatrix, hM, hHook, Except.map]
  congr 1
  funext i
  ring

/-- C5: when every indexed node's 3-block fits, `ExtractElementDofs`
succeeds and places, for each local node `i` and offset `r < 3`, the global
entry at position `node_indices[i]*3 + r` into local position `i*3 + r`. -/
theorem extractElementDofs_blocks (node_indices : Fin n → ℕ)
    (dofs : List ℚ)
    (h : ∀ i : Fin n, (node_indices i + 1) * 3 ≤ dofs.length) :
    ∃ v : Vec (3 * n), ExtractElementDofs node_indices dofs = .ok v ∧
      ∀ (i : Fin n) (r : Fin 3),
        v ⟨i.val * 3 + r.val, by have := i.isLt; have := r.isLt; omega⟩ =
          dofs.getD (node_indices i * 3 + r.val) 0 := by
  refine ⟨fun j =>
      dofs.getD (node_indices ⟨j.val / 3, by omega⟩ * 3 + j.val % 3) 0,
    ?_, ?_⟩
  · simp only [ExtractElementDofs]
    rw [if_pos h]
  · intro i r
    have h1 : (i.val * 3 + r.val) / 3 = i.val := by
      have := r.isLt; omega
    have h2 : (i.val * 3 + r.val) % 3 = r.val := by
      have := r.isLt; omega
    simp only [h1, h2, Fin.eta]

/-- The middle piece of a three-way concatenation occurs as a contiguous
substring. -/
theorem data_infix_middle (a b c m : String) (hm : m = a ++ b ++ c) :
    b.data <:+: m.data :=
  ⟨a.data, c.data, by simp [hm]⟩

/-- The second piece of a five-way concatenation occurs as a contiguous
substring. -/
theorem data_infix_second (a b c d2 e2 : String) :
    b.data <:+: (a ++ b ++ c ++ d2 ++ e2).data :=
  data_infix_middle a b (c ++ d2 ++ e2) _ (by simp [String.append_assoc])

/-- C7: on an element whose derived type supplies none of the four required
kernels, `ComputeData`, `CalcResidual`, `AddScaledStiffnessMatrix` and
`AddScaledMassMatrix` each throw a runtime error whose message contains both
the omitted operation's name and the concrete element type's name. -/
theorem missing_kernel_message (e : FemElement n State Data CM)
    (h1 : e.doComputeData = none) (h2 : e.doCalcResidual = none)
    (h3 : e.doAddScaledStiffnessMatrix = none)
    (h4 : e.doAddScaledMassMatrix = none)
    (state : State) (data : Data) (s : ℚ)
    (r : Vec (3 * n)) (B : Mat (3 * n)) :
    (∃ m, e.ComputeData state = .error (.runtimeError m) ∧
       "DoComputeData".data <:+: m.data ∧ e.typeName.data <:+: m.data) ∧
    (∃ m, e.CalcResidual data (some r) = .error (.runtimeError m) ∧
       "DoCalcResidual".data <:+: m.data ∧ e.typeName.data <:+: m.data) ∧
    (∃ m, e.AddScaledStiffnessMatrix data s (some B) =
          .error (.runtimeError m) ∧
       "DoAddScaledStiffnessMatrix".data <:+: m.data ∧
       e.typeName.data <:+: m.data) ∧
    (∃ m, e.AddScaledMassMatrix data s (some B) = .error (.runtimeError m) ∧
       "DoAddScaledMassMatrix".data <:+: m.data ∧
       e.typeName.data <:+: m.data) := by
  refine ⟨?_, ?_, ?_, ?_⟩
  · exact ⟨"The DerivedElement from " ++ e.typeName ++
      " must provide an implementation for " ++ "DoComputeData" ++ "().",
      by simp only [ComputeData, h1, ThrowIfNotImplemented],
      data_infix_middle _ _ _ _ rfl, data_infix_second _ _ _ _ _⟩
  · exact ⟨"The DerivedElement from " ++ e.typeName ++
      " must provide an implementation for " ++ "DoCalcResidual" ++ "().",
      by simp only [CalcResidual, h2, ThrowIfNotImplemented],
      data_infix_middle _ _ _ _ rfl, data_infix_second _ _ _ _ _⟩
  · exact ⟨"The DerivedElement from " ++ e.typeName ++
      " must provide an implementation for " ++
      "DoAddScaledStiffnessMatrix" ++ "().",
      by simp only [AddScaledStiffnessMatrix, h3, ThrowIfNotImplemented],
      data_infix_middle _ _ _ _ rfl, data_infix_second _ _ _ _ _⟩
  · exact ⟨"The DerivedElement from " ++ e.typeName ++
      " must provide an implementation for " ++ "DoAddScaledMassMatrix" ++
      "().",
      by simp only [AddScaledMassMatrix, h4, ThrowIfNotImplemented],
      data_infix_middle _ _ _ _ rfl, data_infix_second _ _ _ _ _⟩

end FemElement

/-- Concrete local stiffness matrix for a one-node example element. -/
def egK : Unit → Mat (3 * 1) := fun _ => fun i j =>
  (i.val : ℚ) + 2 * (j.val : ℚ) + 1

/-- Concrete local mass matrix for a one-node example element. -/
def egM : Unit → Mat (3 * 1) := fun _ => fun i j =>
  if i = j then (2 : ℚ) else 0

/-- Concrete constant residual contribution for the one-node example. -/
def egC : Vec (3 * 1) := fun i => (i.val : ℚ) + 1

/-- A one-node example element with conforming kernels. -/
def egElement : FemElement 1 Unit Unit Unit where
  typeName := "ExampleElement"
  element_index := 0
  node_indices := fun _ => 0
  constitutive_model := ()
  damping_model := { mass_coeff_alpha := 1/2, stiffness_coeff_beta := 1/3 }
  doCalcResidual := some (fun _ r => fun i => r i + egC i)
  doAddScaledStiffnessMatrix := some (addScaledOf egK)
  doAddScaledMassMatrix := some (addScaledOf egM)

/-- Identity local mass matrix for a two-node example element. -/
def egMass2 : Unit → Mat (3 * 2) := fun _ => fun i j =>
  if i = j then (1 : ℚ) else 0

/-- A two-node example element with an identity mass kernel, default gravity
and the default external-force hook. -/
def egElement2 : FemElement 2 Unit Unit Unit where
  typeName := "TwoNodeElement"
  element_index := 1
  node_indices := fun i => i.val
  constitutive_model := ()
  damping_model := { mass_coeff_alpha := 0, stiffness_coeff_beta := 0 }
  doAddScaledMassMatrix := some (addScaledOf egMass2)

/-- A one-node example element that supplies none of the required kernels. -/
def egBare : FemElement 1 Unit Unit Unit where
  typeName := "BareElement"
  element_index := 2
  node_indices := fun _ => 0
  constitutive_model := ()
  damping_model := { mass_coeff_alpha := 0, stiffness_coeff_beta := 0 }

/-- Example node indices for a three-node element. -/
def egNodes : Fin 3 → ℕ := ![2, 0, 1]

/-- Example global dof vector with 3-blocks A = (10,11,12), B = (20,21,22),
C = (30,31,32) at global nodes 0, 1, 2. -/
def egDofs : List ℚ := [10, 11, 12, 20, 21, 22, 30, 31, 32]

namespace FemElement

/-- Witness for C1: the one-node example with weights (1, 2, 3) and a
pre-seeded buffer evaluates to `(5/3)*K + 4*M`. -/
theorem calcTangentMatrix_combines_witness :
    (egElement.doAddScaledStiffnessMatrix = some (addScaledOf egK) ∧
     egElement.doAddScaledMassMatrix = some (addScaledOf egM)) ∧
    egElement.CalcTangentMatrix () ![1, 2, 3] (some (fun _ _ => 5)) =
      .ok (fun i j => (5 : ℚ)/3 * egK () i j + 4 * egM () i j) :=
  ⟨⟨rfl, rfl⟩,
    ((calcTangentMatrix_combines egElement egK egM rfl rfl () ![1, 2, 3]
        (fun _ _ => 5)).1).trans
      (congrArg Except.ok (by
        funext i j
        simp only [egElement, Matrix.cons_val_zero, Matrix.cons_val_one,
          Matrix.head_cons, Matrix.cons_val_two, Matrix.tail_cons]
        ring))⟩

/-- Witness for C2: the one-node example's residual on a dirty buffer is
exactly the kernel's constant contribution. -/
theorem calcResidual_zeroes_first_witness :
    (egElement.doCalcResidual = some (fun _ r => fun i => r i + egC i)) ∧
    egElement.CalcResidual () (some (fun _ => 9)) = .ok egC :=
  ⟨rfl, calcResidual_zeroes_first egElement egC rfl () (fun _ => 9)⟩

/-- Witness for C3: accumulation into a buffer pre-seeded with 10, at scale
4, for the one-node example. -/
theorem addScaled_accumulate_only_witness :
    (egElement.doAddScaledStiffnessMatrix = some (addScaledOf egK) ∧
     egElement.doAddScaledMassMatrix = some (addScaledOf egM)) ∧
    (egElement.AddScaledStiffnessMatrix () 4 (some (fun _ _ => 10)) =
       .ok (fun i j => (10 : ℚ) + 4 * egK () i j) ∧
     egElement.AddScaledMassMatrix () 4 (some (fun _ _ => 10)) =
       .ok (fun i j => (10 : ℚ) + 4 * egM () i j) ∧
     (egElement.AddScaledStiffnessMatrix () 4 (some (fun _ _ => 10))).bind
         (fun Y => egElement.AddScaledStiffnessMatrix () 4 (some Y)) =
       .ok (fun i j => (10 : ℚ) + 2 * 4 * egK () i j)) :=
  ⟨⟨rfl, rfl⟩,
    addScaled_accumulate_only egElement egK egM rfl rfl () 4 (fun _ _ => 10)⟩

/-- Witness for C4: damping accumulation at scale 7 into a buffer of ones,
for the one-node example. -/
theorem addScaledDampingMatrix_spec_witness :
    (egElement.doAddScaledStiffnessMatrix = some (addScaledOf egK) ∧
     egElement.doAddScaledMassMatrix = some (addScaledOf egM)) ∧
    (egElement.AddScaledDampingMatrix () 7 (some (fun _ _ => 1)) =
       (egElement.AddScaledMassMatrix ()
           (7 * egElement.damping_model.mass_coeff_alpha)
           (some (fun _ _ => 1))).bind
         (fun D1 => egElement.AddScaledStiffnessMatrix ()
           (7 * egElement.damping_model.stiffness_coeff_beta) (some D1)) ∧
     egElement.AddScaledDampingMatrix () 7 (some (fun _ _ => 1)) =
       .ok (fun i j => (1 : ℚ) +
         7 * (egElement.damping_model.mass_coeff_alpha * egM () i j +
              egElement.damping_model.stiffness_coeff_beta * egK () i j))) :=
  ⟨⟨rfl, rfl⟩,
    addScaledDampingMatrix_spec egElement egK egM rfl rfl () 7 (fun _ _ => 1)⟩

/-- Witness for C5: node indices (2, 0, 1) on a nine-entry global vector;
the result is the concatenation of blocks C, A, B. -/
theorem extractElementDofs_blocks_witness :
    (∀ i : Fin 3, (egNodes i + 1) * 3 ≤ egDofs.length) ∧
    (∃ v : Vec (3 * 3), ExtractElementDofs egNodes egDofs = .ok v ∧
      ∀ (i : Fin 3) (r : Fin 3),
        v ⟨i.val * 3 + r.val, by have := i.isLt; have := r.isLt; omega⟩ =
          egDofs.getD (egNodes i * 3 + r.val) 0) ∧
    ExtractElementDofs egNodes egDofs =
      .ok (fun j =>
        ([30, 31, 32, 10, 11, 12, 20, 21, 22] : List ℚ).getD j.val 0) :=
  ⟨by decide, extractElementDofs_blocks egNodes egDofs (by decide), by decide⟩

/-- Witness for C6: the two-node example with identity mass matrix and
default gravity receives the load (0, 0, -9.81) at each node. -/
theorem addScaledExternalForce_gravity_witness :
    (egElement2.doAddScaledMassMatrix = some (addScaledOf egMass2) ∧
     egElement2.doAddScaledExternalForce = fun _ _ f => f) ∧
    egElement2.AddScaledExternalForce () 1 (some (fun _ => 0)) =
      .ok (fun i => if i.val % 3 = 2 then -(981/100) else 0) :=
  ⟨⟨rfl, rfl⟩,
    (addScaledExternalForce_gravity egElement2 egMass2 rfl rfl () 1
        (fun _ => 0)).trans
      (congrArg Except.ok (by
        funext i
        fin_cases i <;> simp [egMass2, egElement2, Fin.sum_univ_six] <;>
          decide))⟩

/-- Witness for C7: the bare one-node element throws on all four required
operations, with messages naming the operation and the type. -/
theorem missing_kernel_message_witness :
    (egBare.doComputeData = none ∧ egBare.doCalcResidual = none ∧
     egBare.doAddScaledStiffnessMatrix = none ∧
     egBare.doAddScaledMassMatrix = none) ∧
    ((∃ m, egBare.ComputeData () = .error (.runtimeError m) ∧
        "DoComputeData".data <:+: m.data ∧ egBare.typeName.data <:+: m.data) ∧
     (∃ m, egBare.CalcResidual () (some (fun _ => 0)) =
           .error (.runtimeError m) ∧
        "DoCalcResidual".data <:+: m.data ∧
        egBare.typeName.data <:+: m.data) ∧
     (∃ m, egBare.AddScaledStiffnessMatrix () 2 (some (fun _ _ => 0)) =
           .error (.runtimeError m) ∧
        "DoAddScaledStiffnessMatrix".data <:+: m.data ∧
        egBare.typeName.data <:+: m.data) ∧
     (∃ m, egBare.AddScaledMassMatrix () 2 (some (fun _ _ => 0)) =
           .error (.runtimeError m) ∧
        "DoAddScaledMassMatrix".data <:+: m.data ∧
        egBare.typeName.data <:+: m.data)) :=
  ⟨⟨rfl, rfl, rfl, rfl⟩,
    missing_kernel_message egBare rfl rfl rfl rfl () () 2 (fun _ => 0)
      (fun _ _ => 0)⟩

/-- Witness for C9: mass accumulation at scales 10 and 5 on zeroed buffers
for the one-node example. -/
theorem addScaledMassMatrix_linearity_witness :
    (egElement.doAddScaledMassMatrix = some (addScaledOf egM)) ∧
    egElement.AddScaledMassMatrix () (2 * 5) (some (fun _ _ => 0)) =
      Except.map (fun W : Mat (3 * 1) => fun i j => 2 * W i j)
        (egElement.AddScaledMassMatrix () 5 (some (fun _ _ => 0))) :=
  ⟨rfl, addScaledMassMatrix_linearity egElement egM rfl () 5⟩

/-- Witness for C10: the two-node example adds the same external-force
increment to a dirty buffer as to a zeroed one. -/
theorem addScaledExternalForce_additive_witness :
    (egElement2.doAddScaledMassMatrix = some (addScaledOf egMass2) ∧
     egElement2.doAddScaledExternalForce = fun _ _ f => f) ∧
    egElement2.AddScaledExternalForce () 3 (some (fun i => (i.val : ℚ))) =
      Except.map (fun v : Vec (3 * 2) => fun i => (i.val : ℚ) + v i)
        (egElement2.AddScaledExternalForce () 3 (some (fun _ => 0))) :=
  ⟨⟨rfl, rfl⟩,
    addScaledExternalForce_additive egElement2 (addScaledOf egMass2) rfl rfl
      () 3 (fun i => (i.val : ℚ))⟩

end FemElement

end DrakeFem
